import Mathlib

/-!
Shallow embedding of the streaming-pull subscriber engine
(`src/pubsub/src/subscriber.rs` of `google-cloud-rust`).

The async Rust code is embedded as pure Lean functions:
* the RPC capability (`SubscriberClient`) is a record of response
  functions, and each helper returns its result together with the list
  of RPC calls it issued;
* the per-envelope `select! { queue.send(..) vs cancel.cancelled() }`
  race inside `handle_message` is resolved by an oracle
  `race : Nat → Bool` (indexed by the number of payload-bearing
  envelopes processed so far; `true` means the send failed or
  cancellation won, i.e. `should_nack`);
* the receive loop and the retry loop are driven by finite traces of
  environment events (race outcomes and stream-open outcomes).
-/

/-- gRPC status codes (`google_cloud_gax::grpc::Code`). -/
inductive Code where
  | ok
  | cancelled
  | unknown
  | invalidArgument
  | deadlineExceeded
  | notFound
  | alreadyExists
  | permissionDenied
  | resourceExhausted
  | failedPrecondition
  | aborted
  | outOfRange
  | unimplemented
  | internal
  | unavailable
  | dataLoss
  | unauthenticated
deriving DecidableEq, Repr

/-- gRPC status (`google_cloud_gax::grpc::Status`): a code plus a message. -/
structure Status where
  code : Code
  message : String
deriving DecidableEq, Repr

/-- `google_cloud_googleapis::pubsub::v1::PubsubMessage` (the fields the
subscriber reads). -/
structure PubsubMessage where
  message_id : String
  data : String
deriving DecidableEq, Repr

/-- `google_cloud_googleapis::pubsub::v1::ReceivedMessage`: one inbound
envelope of a `StreamingPullResponse` frame. `delivery_attempt` is an
`i32` in the proto, modelled as `Int`. -/
structure InternalReceivedMessage where
  ack_id : String
  message : Option PubsubMessage
  delivery_attempt : Int
deriving DecidableEq, Repr

/-- `google_cloud_googleapis::pubsub::v1::ModifyAckDeadlineRequest`. -/
structure ModifyAckDeadlineRequest where
  subscription : String
  ack_deadline_seconds : Int
  ack_ids : List String
deriving DecidableEq, Repr

/-- `google_cloud_googleapis::pubsub::v1::AcknowledgeRequest`. -/
structure AcknowledgeRequest where
  subscription : String
  ack_ids : List String
deriving DecidableEq, Repr

/-- One RPC call issued through the subscriber client capability. -/
inductive RpcCall where
  | modifyAckDeadline (req : ModifyAckDeadlineRequest)
  | acknowledge (req : AcknowledgeRequest)
deriving DecidableEq, Repr

/-- The RPC capability (`SubscriberClient`): what the broker answers to
each unary call. The subscriber treats it as an opaque, clonable
capability, so it is a record of response functions. -/
structure SubscriberClient where
  modifyAckDeadlineResult : ModifyAckDeadlineRequest → Except Status Unit
  acknowledgeResult : AcknowledgeRequest → Except Status Unit

/-- Free function `modify_ack_deadline` (subscriber.rs lines 305-323):
empty token list short-circuits to success with no call; otherwise one
`ModifyAckDeadline` call over all tokens, returning its status verbatim.
The second component is the list of RPC calls issued. -/
def subscriber.modify_ack_deadline (subscriber_client : SubscriberClient) (subscription : String)
    (ack_ids : List String) (ack_deadline_seconds : Int) :
    Except Status Unit × List RpcCall :=
  if ack_ids.isEmpty then
    (Except.ok (), [])
  else
    let req : ModifyAckDeadlineRequest :=
      { subscription := subscription
        ack_deadline_seconds := ack_deadline_seconds
        ack_ids := ack_ids }
    (subscriber_client.modifyAckDeadlineResult req, [RpcCall.modifyAckDeadline req])

/-- Free function `nack` (subscriber.rs lines 325-327): a modify-deadline
to zero seconds. -/
def subscriber.nack (subscriber_client : SubscriberClient) (subscription : String)
    (ack_ids : List String) : Except Status Unit × List RpcCall :=
  subscriber.modify_ack_deadline subscriber_client subscription ack_ids 0

/-- Free function `ack` (subscriber.rs lines 329-339): empty token list
short-circuits to success with no call; otherwise one `Acknowledge` call
over all tokens, returning its status verbatim. -/
def subscriber.ack (subscriber_client : SubscriberClient) (subscription : String)
    (ack_ids : List String) : Except Status Unit × List RpcCall :=
  if ack_ids.isEmpty then
    (Except.ok (), [])
  else
    let req : AcknowledgeRequest := { subscription := subscription, ack_ids := ack_ids }
    (subscriber_client.acknowledgeResult req, [RpcCall.acknowledge req])

/-- The lease handle (`ReceivedMessage`, subscriber.rs lines 18-25):
payload, lease token, owning subscription, shared RPC capability, and
the optional delivery-attempt counter. -/
structure ReceivedMessage where
  message : PubsubMessage
  ack_id : String
  subscription : String
  subscriber_client : SubscriberClient
  delivery_attempt : Option Nat

/-- `ReceivedMessage::new` (subscriber.rs lines 28-42). -/
def ReceivedMessage.new (subscription : String) (subc : SubscriberClient)
    (message : PubsubMessage) (ack_id : String) (delivery_attempt : Option Nat) :
    ReceivedMessage :=
  { message := message
    ack_id := ack_id
    subscription := subscription
    subscriber_client := subc
    delivery_attempt := delivery_attempt }

/-- Method `ReceivedMessage::ack` (subscriber.rs lines 48-55). -/
def ReceivedMessage.ack (self : ReceivedMessage) : Except Status Unit × List RpcCall :=
  subscriber.ack self.subscriber_client self.subscription [self.ack_id]

/-- Method `ReceivedMessage::nack` (subscriber.rs lines 57-64). -/
def ReceivedMessage.nack (self : ReceivedMessage) : Except Status Unit × List RpcCall :=
  subscriber.nack self.subscriber_client self.subscription [self.ack_id]

/-- Method `ReceivedMessage::modify_ack_deadline` (subscriber.rs lines 66-74). -/
def ReceivedMessage.modify_ack_deadline (self : ReceivedMessage)
    (ack_deadline_seconds : Int) : Except Status Unit × List RpcCall :=
  subscriber.modify_ack_deadline self.subscriber_client self.subscription [self.ack_id]
    ack_deadline_seconds

/-- The lease handle constructed by `handle_message` for one
payload-bearing envelope (subscriber.rs lines 276-282): the Rust
`(received_message.delivery_attempt > 0).then_some(received_message.delivery_attempt as usize)`
becomes an if-then-else on the `Int` field. -/
def mkReceivedMessage (client : SubscriberClient) (subscription : String)
    (rm : InternalReceivedMessage) (m : PubsubMessage) : ReceivedMessage :=
  ReceivedMessage.new subscription client m rm.ack_id
    (if rm.delivery_attempt > 0 then some rm.delivery_attempt.toNat else none)

/-- The `for received_message in messages` loop of `handle_message`
(subscriber.rs lines 271-292). `race idx` resolves the
`select! { queue.send(msg) vs cancel.cancelled() }` race for the
`idx`-th payload-bearing envelope: `true` means `should_nack` (the send
returned an error or cancellation won). Returns the handles delivered
to the queue and the accumulated `nack_targets`, both in order. -/
def handleLoop (client : SubscriberClient) (subscription : String) (race : Nat → Bool) :
    List InternalReceivedMessage → Nat → List ReceivedMessage × List String
  | [], _ => ([], [])
  | rm :: rest, idx =>
    match rm.message with
    | none => handleLoop client subscription race rest idx
    | some m =>
      let msg := mkReceivedMessage client subscription rm m
      let should_nack := race idx
      let (sent, nacked) := handleLoop client subscription race rest (idx + 1)
      if should_nack then (sent, rm.ack_id :: nacked) else (msg :: sent, nacked)

/-- Result of one `handle_message` run: the handles sent into the
outbound queue, the immediate-nack batch, the RPC calls issued, and the
returned count. -/
structure HandleResult where
  sent : List ReceivedMessage
  nack_targets : List String
  calls : List RpcCall
  ret : Nat

/-- `handle_message` (subscriber.rs lines 264-303): process every
envelope of one inbound frame, then, if any lease tokens were recorded
for immediate nack, issue one batched modify-deadline-to-zero call over
all of them; its failure is logged only and the recorded count is
returned regardless. -/
def handle_message (client : SubscriberClient) (subscription : String)
    (race : Nat → Bool) (messages : List InternalReceivedMessage) : HandleResult :=
  let (sent, nack_targets) := handleLoop client subscription race messages 0
  let size := nack_targets.length
  let calls :=
    if size > 0 then (subscriber.nack client subscription nack_targets).2 else []
  { sent := sent, nack_targets := nack_targets, calls := calls, ret := size }

/-- One iteration of the receive loop's `select!`
(subscriber.rs lines 237-250): either cancellation wins, or
`stream.message()` completes with `Err(status)`, `Ok(None)` (clean end
of stream) or `Ok(Some(frame))`. -/
inductive RecvEvent where
  | cancelled
  | read (r : Except Status (Option (List InternalReceivedMessage)))

/-- `Subscriber::recv` (subscriber.rs lines 228-252), driven by a finite
trace of race outcomes. Returns `(some result, closeCount)` when a
terminal event is reached, `(none, closeCount)` when the trace runs out
with the loop still running; `closeCount` counts `queue.close()` calls
performed by the loop. A frame is dispatched via `handle_message`, whose
result is discarded (`let _ = handle_message(..)`), and the loop
continues. -/
def Subscriber.recv : List RecvEvent → Option (Except Status Unit) × Nat
  | [] => (none, 0)
  | RecvEvent.cancelled :: _ => (some (Except.ok ()), 1)
  | RecvEvent.read (Except.error s) :: _ => (some (Except.error s), 0)
  | RecvEvent.read (Except.ok none) :: _ => (some (Except.ok ()), 0)
  | RecvEvent.read (Except.ok (some _)) :: rest => Subscriber.recv rest

/-- `RetrySetting` (from `google_cloud_gax::retry`): the subscriber only
reads its set of retryable status codes. -/
structure RetrySetting where
  codes : List Code

/-- Engine configuration (`SubscriberConfig`, subscriber.rs lines 88-110).
`ping_interval` is modelled in milliseconds. -/
structure SubscriberConfig where
  ping_interval : Nat
  retry_setting : Option RetrySetting
  stream_ack_deadline_seconds : Int
  max_outstanding_messages : Int
  max_outstanding_bytes : Int

/-- `StreamingPullRequest` (the scalar fields the subscriber sets). -/
structure StreamingPullRequest where
  subscription : String
  stream_ack_deadline_seconds : Int
  max_outstanding_messages : Int
  max_outstanding_bytes : Int
deriving DecidableEq, Repr

/-- Modelled from the spec: `create_empty_streaming_pull_request` lives
in the API plumbing (`crate::apiv1::subscriber_client`), outside the
reviewed source. Per the spec the engine builds a fresh open-stream
request each iteration and itself sets the subscription name, the stream
acknowledgment-deadline and both flow-control caps, so the empty request
carries default (empty / zero) values for those fields. -/
def create_empty_streaming_pull_request : StreamingPullRequest :=
  { subscription := ""
    stream_ack_deadline_seconds := 0
    max_outstanding_messages := 0
    max_outstanding_bytes := 0 }

/-- The request built at the top of every retry-loop iteration
(subscriber.rs lines 167-171). -/
def streamingPullRequestFor (config : SubscriberConfig) (subscription : String) :
    StreamingPullRequest :=
  { create_empty_streaming_pull_request with
      subscription := subscription
      stream_ack_deadline_seconds := config.stream_ack_deadline_seconds
      max_outstanding_messages := config.max_outstanding_messages
      max_outstanding_bytes := config.max_outstanding_bytes }

/-- Environment outcome of one retry-loop iteration: the
`client.streaming_pull(..)` open attempt fails with a status, or the
stream opens and `Subscriber::recv` eventually returns a result. -/
inductive StreamOutcome where
  | openErr (s : Status)
  | opened (recvResult : Except Status Unit)

/-- Observable event of the retry loop: a stream-open attempt carrying
the request it sends, or a backoff sleep of the given milliseconds. -/
inductive LoopEvent where
  | attempt (req : StreamingPullRequest)
  | sleepMs (n : Nat)
deriving DecidableEq, Repr

/-- The retry loop of `Subscriber::start`'s inner task
(subscriber.rs lines 166-218), driven by a finite trace of per-iteration
outcomes. `cancel_retry` is the bounded-retry counter for `cancelled`
open failures, scoped to one engine lifetime. Returns the emitted events
and whether the loop terminated (`break`) within the trace (`false`
means the trace ran out with the loop still iterating). -/
def subscriberLoop (retryable : List Code) (config : SubscriberConfig)
    (subscription : String) : Nat → List StreamOutcome → List LoopEvent × Bool
  | _, [] => ([], false)
  | cancel_retry, outcome :: rest =>
    let req := streamingPullRequestFor config subscription
    match outcome with
    | StreamOutcome.openErr e =>
      if e.code = Code.cancelled then
        if cancel_retry < 5 then
          (LoopEvent.attempt req :: LoopEvent.sleepMs 1000 ::
             (subscriberLoop retryable config subscription (cancel_retry + 1) rest).1,
           (subscriberLoop retryable config subscription (cancel_retry + 1) rest).2)
        else
          ([LoopEvent.attempt req], true)
      else if retryable.contains e.code then
        (LoopEvent.attempt req ::
           (subscriberLoop retryable config subscription cancel_retry rest).1,
         (subscriberLoop retryable config subscription cancel_retry rest).2)
      else
        ([LoopEvent.attempt req], true)
    | StreamOutcome.opened r =>
      match r with
      | Except.ok _ => ([LoopEvent.attempt req], true)
      | Except.error e =>
        if retryable.contains e.code then
          (LoopEvent.attempt req ::
             (subscriberLoop retryable config subscription cancel_retry rest).1,
           (subscriberLoop retryable config subscription cancel_retry rest).2)
        else
          ([LoopEvent.attempt req], true)

/-- The payload-bearing envelopes of a frame, paired with their payloads,
in frame order. -/
def payloadEnvelopes (messages : List InternalReceivedMessage) :
    List (InternalReceivedMessage × PubsubMessage) :=
  messages.filterMap (fun rm => rm.message.map (fun m => (rm, m)))

/-- `handleLoop` partitions the payload-bearing envelopes by the race
oracle: the envelopes whose race came out `false` are delivered, in
order, as the constructed lease handles, and those whose race came out
`true` contribute, in order, their lease tokens to the nack batch. -/
theorem handleLoop_eq (client : SubscriberClient) (subscription : String) (race : Nat → Bool)
    (msgs : List InternalReceivedMessage) : ∀ idx : Nat,
    handleLoop client subscription race msgs idx =
      ((((payloadEnvelopes msgs).enumFrom idx).filter
          (fun p => !race p.1)).map (fun p => mkReceivedMessage client subscription p.2.1 p.2.2),
       (((payloadEnvelopes msgs).enumFrom idx).filter
          (fun p => race p.1)).map (fun p => p.2.1.ack_id)) := by
  induction msgs with
  | nil => intro idx; simp [handleLoop, payloadEnvelopes]
  | cons rm rest ih =>
    intro idx
    cases h : rm.message with
    | none =>
      simp [handleLoop, h, payloadEnvelopes, List.filterMap_cons, ih idx]
    | some m =>
      simp only [handleLoop, h, payloadEnvelopes, List.filterMap_cons, Option.map_some',
        List.enumFrom_cons, List.filter_cons, ih (idx + 1)]
      cases hr : race idx with
      | false => simp [hr]
      | true => simp [hr]

/-- A concrete RPC capability for instantiating theorems: every call
succeeds. -/
def testClient : SubscriberClient :=
  { modifyAckDeadlineResult := fun _ => Except.ok ()
    acknowledgeResult := fun _ => Except.ok () }

/-- A concrete RPC capability whose every call fails. -/
def failClient : SubscriberClient :=
  { modifyAckDeadlineResult := fun _ => Except.error ⟨Code.unavailable, "down"⟩
    acknowledgeResult := fun _ => Except.error ⟨Code.unavailable, "down"⟩ }

/-- A concrete message payload. -/
def testPayload : PubsubMessage := { message_id := "m1", data := "d1" }

/-- A concrete payload-bearing inbound envelope (redelivered 3 times). -/
def testEnvelope : InternalReceivedMessage :=
  { ack_id := "ack-1", message := some testPayload, delivery_attempt := 3 }

/-- A concrete envelope with no payload. -/
def emptyEnvelope : InternalReceivedMessage :=
  { ack_id := "ack-2", message := none, delivery_attempt := 0 }

/-- C1: for every inbound frame, each payload-bearing envelope is either
delivered to the outbound queue as a lease handle or contributes its
lease token to the immediate-nack batch — the two lists are the exact
partition of the payload-bearing envelopes by the send/cancel race, so
never both and never neither — and `handle_message` returns exactly the
size of the nack batch. -/
theorem handle_message_partition (client : SubscriberClient) (subscription : String)
    (race : Nat → Bool) (messages : List InternalReceivedMessage) :
    (handle_message client subscription race messages).sent =
        (((payloadEnvelopes messages).enum).filter (fun p => !race p.1)).map
          (fun p => mkReceivedMessage client subscription p.2.1 p.2.2) ∧
    (handle_message client subscription race messages).nack_targets =
        (((payloadEnvelopes messages).enum).filter (fun p => race p.1)).map
          (fun p => p.2.1.ack_id) ∧
    (handle_message client subscription race messages).ret =
        (handle_message client subscription race messages).nack_targets.length ∧
    (handle_message client subscription race messages).sent.length +
        (handle_message client subscription race messages).nack_targets.length =
      (payloadEnvelopes messages).length := by
  have h := handleLoop_eq client subscription race messages 0
  have hperm :=
    (List.filter_append_perm (fun p => race p.1)
      ((payloadEnvelopes messages).enumFrom 0)).length_eq
  simp only [List.length_append] at hperm
  refine ⟨?_, ?_, ?_, ?_⟩
  · simp [handle_message, h, List.enum]
  · simp [handle_message, h, List.enum]
  · simp [handle_message, h]
  · simp only [handle_message, h, List.enum, List.length_map]
    simp only [List.enumFrom_length] at hperm
    omega

/-- C10: an envelope whose message payload is absent is skipped entirely
by `handle_message`: the run on a frame containing it is identical to
the run on the frame with it removed — no handle is constructed or sent,
no token is added to the nack batch, and the returned count is
unchanged. -/
theorem handle_message_skips_payloadless (client : SubscriberClient) (subscription : String)
    (race : Nat → Bool) (xs ys : List InternalReceivedMessage) (rm : InternalReceivedMessage)
    (h : rm.message = none) :
    handle_message client subscription race (xs ++ rm :: ys) =
      handle_message client subscription race (xs ++ ys) := by
  have hp : payloadEnvelopes (xs ++ rm :: ys) = payloadEnvelopes (xs ++ ys) := by
    simp [payloadEnvelopes, List.filterMap_append, List.filterMap_cons, h]
  simp only [handle_message, handleLoop_eq, hp]

theorem handle_message_skips_payloadless_witness :
    handle_message testClient "sub" (fun _ => false) ([testEnvelope] ++ emptyEnvelope :: []) =
      handle_message testClient "sub" (fun _ => false) ([testEnvelope] ++ []) :=
  handle_message_skips_payloadless testClient "sub" (fun _ => false) [testEnvelope] []
    emptyEnvelope rfl

/-- C6: for a broker-reported (hence non-negative) delivery-attempt
count, the lease handle built by `handle_message` carries a
`delivery_attempt` that is `none` exactly when the count is 0, and
otherwise `some k` with `k ≥ 1`. -/
theorem delivery_attempt_none_iff_zero (client : SubscriberClient) (subscription : String)
    (rm : InternalReceivedMessage) (m : PubsubMessage) (hd : 0 ≤ rm.delivery_attempt) :
    ((mkReceivedMessage client subscription rm m).delivery_attempt = none ↔
      rm.delivery_attempt = 0) ∧
    (rm.delivery_attempt ≠ 0 →
      ∃ k, (mkReceivedMessage client subscription rm m).delivery_attempt = some k ∧ 1 ≤ k) := by
  by_cases hgt : 0 < rm.delivery_attempt
  · constructor
    · simp only [mkReceivedMessage, ReceivedMessage.new, hgt, if_pos]
      constructor
      · intro hcon; exact absurd hcon (by simp)
      · intro h0; omega
    · intro _
      exact ⟨rm.delivery_attempt.toNat,
        by simp [mkReceivedMessage, ReceivedMessage.new, hgt], by omega⟩
  · have h0 : rm.delivery_attempt = 0 := le_antisymm (not_lt.mp hgt) hd
    constructor
    · simp [mkReceivedMessage, ReceivedMessage.new, hgt, h0]
    · intro hne; exact absurd h0 hne

theorem delivery_attempt_none_iff_zero_witness :
    (0 : Int) ≤ testEnvelope.delivery_attempt ∧
    (((mkReceivedMessage testClient "sub" testEnvelope testPayload).delivery_attempt = none ↔
        testEnvelope.delivery_attempt = 0) ∧
      (testEnvelope.delivery_attempt ≠ 0 →
        ∃ k, (mkReceivedMessage testClient "sub" testEnvelope testPayload).delivery_attempt =
            some k ∧ 1 ≤ k)) :=
  ⟨by decide, delivery_attempt_none_iff_zero testClient "sub" testEnvelope testPayload (by decide)⟩

/-- C7: after processing a frame, `handle_message` issues exactly one
batched modify-deadline-to-zero call iff at least one lease token was
recorded for immediate nack, and the outcome of that call (here: two
capabilities giving different answers) never changes the returned count,
which is always the size of the nack batch. -/
theorem handle_message_single_nack_call (client client' : SubscriberClient)
    (subscription : String) (race : Nat → Bool) (messages : List InternalReceivedMessage) :
    ((handle_message client subscription race messages).nack_targets ≠ [] →
      (handle_message client subscription race messages).calls =
        [RpcCall.modifyAckDeadline
          { subscription := subscription
            ack_deadline_seconds := 0
            ack_ids := (handle_message client subscription race messages).nack_targets }]) ∧
    ((handle_message client subscription race messages).nack_targets = [] →
      (handle_message client subscription race messages).calls = []) ∧
    (handle_message client subscription race messages).ret =
      (handle_message client subscription race messages).nack_targets.length ∧
    (handle_message client' subscription race messages).ret =
      (handle_message client subscription race messages).ret := by
  have hcalls : (handle_message client subscription race messages).calls =
      if (handle_message client subscription race messages).nack_targets.length > 0 then
        (subscriber.nack client subscription
          (handle_message client subscription race messages).nack_targets).2
      else [] := rfl
  refine ⟨?_, ?_, rfl, ?_⟩
  · intro hne
    rw [hcalls, if_pos (List.length_pos.mpr hne)]
    simp [subscriber.nack, subscriber.modify_ack_deadline, hne]
  · intro hnil
    rw [hcalls, if_neg (by simp [hnil])]
  · have h := handleLoop_eq client subscription race messages 0
    have h' := handleLoop_eq client' subscription race messages 0
    show (handleLoop client' subscription race messages 0).2.length =
      (handleLoop client subscription race messages 0).2.length
    rw [h, h']

theorem handle_message_single_nack_call_witness :
    (handle_message testClient "sub" (fun _ => true) [testEnvelope]).calls =
      [RpcCall.modifyAckDeadline
        { subscription := "sub"
          ack_deadline_seconds := 0
          ack_ids := (handle_message testClient "sub" (fun _ => true) [testEnvelope]).nack_targets }] ∧
    (handle_message failClient "sub" (fun _ => true) [testEnvelope]).ret =
      (handle_message testClient "sub" (fun _ => true) [testEnvelope]).ret :=
  ⟨(handle_message_single_nack_call testClient failClient "sub" (fun _ => true)
      [testEnvelope]).1 (by decide),
   (handle_message_single_nack_call testClient failClient "sub" (fun _ => true)
      [testEnvelope]).2.2.2⟩

/-- C5: the batched helpers short-circuit an empty token list to success
with zero RPC calls; on a non-empty list each issues exactly one call
covering all tokens and returns the capability's status verbatim. -/
theorem batched_helpers_spec (client : SubscriberClient) (subscription : String)
    (tokens : List String) (seconds : Int) :
    (tokens = [] →
      subscriber.modify_ack_deadline client subscription tokens seconds = (Except.ok (), []) ∧
      subscriber.ack client subscription tokens = (Except.ok (), [])) ∧
    (tokens ≠ [] →
      subscriber.modify_ack_deadline client subscription tokens seconds =
        (client.modifyAckDeadlineResult
            { subscription := subscription, ack_deadline_seconds := seconds, ack_ids := tokens },
         [RpcCall.modifyAckDeadline
            { subscription := subscription, ack_deadline_seconds := seconds,
              ack_ids := tokens }]) ∧
      subscriber.ack client subscription tokens =
        (client.acknowledgeResult { subscription := subscription, ack_ids := tokens },
         [RpcCall.acknowledge { subscription := subscription, ack_ids := tokens }])) := by
  constructor
  · intro h
    subst h
    exact ⟨rfl, rfl⟩
  · intro h
    constructor <;> simp [subscriber.modify_ack_deadline, subscriber.ack, h]

theorem batched_helpers_spec_witness :
    (subscriber.modify_ack_deadline testClient "sub" [] 10 = (Except.ok (), []) ∧
     subscriber.ack testClient "sub" [] = (Except.ok (), [])) ∧
    (subscriber.modify_ack_deadline testClient "sub" ["t1", "t2"] 10 =
        (testClient.modifyAckDeadlineResult
            { subscription := "sub", ack_deadline_seconds := 10, ack_ids := ["t1", "t2"] },
         [RpcCall.modifyAckDeadline
            { subscription := "sub", ack_deadline_seconds := 10, ack_ids := ["t1", "t2"] }]) ∧
     subscriber.ack testClient "sub" ["t1", "t2"] =
        (testClient.acknowledgeResult { subscription := "sub", ack_ids := ["t1", "t2"] },
         [RpcCall.acknowledge { subscription := "sub", ack_ids := ["t1", "t2"] }])) :=
  ⟨(batched_helpers_spec testClient "sub" [] 10).1 rfl,
   (batched_helpers_spec testClient "sub" ["t1", "t2"] 10).2 (by decide)⟩

/-- C9: for every lease handle, `nack()` is the same single
modify-ack-deadline invocation as `modifyAckDeadline(0)` — one call over
the handle's one token with zero seconds — and returns the same result. -/
theorem nack_eq_modify_ack_deadline_zero (m : ReceivedMessage) :
    m.nack = m.modify_ack_deadline 0 ∧
    m.nack =
      (m.subscriber_client.modifyAckDeadlineResult
          { subscription := m.subscription, ack_deadline_seconds := 0, ack_ids := [m.ack_id] },
       [RpcCall.modifyAckDeadline
          { subscription := m.subscription, ack_deadline_seconds := 0,
            ack_ids := [m.ack_id] }]) :=
  ⟨rfl, rfl⟩

/-- A concrete engine configuration for instantiating theorems (the
source's default scalar values; no explicit retry setting). -/
def testConfig : SubscriberConfig :=
  { ping_interval := 10000
    retry_setting := none
    stream_ack_deadline_seconds := 60
    max_outstanding_messages := 50
    max_outstanding_bytes := 1000000000 }

/-- C2: within one engine lifetime, a `cancelled` status on stream open
with the cancelled-retry counter below 5 emits one 1000 ms sleep,
increments the counter and retries; with the counter at 5 or above it
terminates the loop with no further retry. Hence six consecutive
`cancelled` open responses from a fresh engine produce exactly five
1000 ms-spaced retries followed by termination. -/
theorem cancelled_open_bounded_retry (retryable : List Code) (config : SubscriberConfig)
    (sub : String) (msg : String) :
    (∀ c rest, c < 5 →
      subscriberLoop retryable config sub c
          (StreamOutcome.openErr ⟨Code.cancelled, msg⟩ :: rest) =
        (LoopEvent.attempt (streamingPullRequestFor config sub) :: LoopEvent.sleepMs 1000 ::
            (subscriberLoop retryable config sub (c + 1) rest).1,
         (subscriberLoop retryable config sub (c + 1) rest).2)) ∧
    (∀ c rest, 5 ≤ c →
      subscriberLoop retryable config sub c
          (StreamOutcome.openErr ⟨Code.cancelled, msg⟩ :: rest) =
        ([LoopEvent.attempt (streamingPullRequestFor config sub)], true)) ∧
    subscriberLoop retryable config sub 0
        (List.replicate 6 (StreamOutcome.openErr ⟨Code.cancelled, msg⟩)) =
      ([LoopEvent.attempt (streamingPullRequestFor config sub), LoopEvent.sleepMs 1000,
        LoopEvent.attempt (streamingPullRequestFor config sub), LoopEvent.sleepMs 1000,
        LoopEvent.attempt (streamingPullRequestFor config sub), LoopEvent.sleepMs 1000,
        LoopEvent.attempt (streamingPullRequestFor config sub), LoopEvent.sleepMs 1000,
        LoopEvent.attempt (streamingPullRequestFor config sub), LoopEvent.sleepMs 1000,
        LoopEvent.attempt (streamingPullRequestFor config sub)], true) := by
  refine ⟨?_, ?_, ?_⟩
  · intro c rest hc
    simp [subscriberLoop, hc]
  · intro c rest hc
    simp [subscriberLoop, Nat.not_lt.mpr hc]
  · rfl

theorem cancelled_open_bounded_retry_witness :
    subscriberLoop [] testConfig "sub" 0 (StreamOutcome.openErr ⟨Code.cancelled, ""⟩ :: []) =
      (LoopEvent.attempt (streamingPullRequestFor testConfig "sub") :: LoopEvent.sleepMs 1000 ::
          (subscriberLoop [] testConfig "sub" (0 + 1) []).1,
       (subscriberLoop [] testConfig "sub" (0 + 1) []).2) ∧
    subscriberLoop [] testConfig "sub" 5 (StreamOutcome.openErr ⟨Code.cancelled, ""⟩ :: []) =
      ([LoopEvent.attempt (streamingPullRequestFor testConfig "sub")], true) :=
  ⟨(cancelled_open_bounded_retry [] testConfig "sub" "").1 0 [] (by decide),
   (cancelled_open_bounded_retry [] testConfig "sub" "").2.1 5 [] (by decide)⟩

/-- C3: a mid-stream read error is reclassified by the retry loop purely
by membership of its code in the configured retryable set — reconnect
(continue to a fresh open attempt, same counter, no sleep) when
retryable, terminate otherwise — with no cancelled-specific bounded
retry counter or 1000 ms backoff in this path; for non-cancelled codes
this is exactly the open-failure classification. -/
theorem read_error_reclassified (retryable : List Code) (config : SubscriberConfig)
    (sub : String) (e : Status) :
    (∀ c rest, retryable.contains e.code = true →
      subscriberLoop retryable config sub c
          (StreamOutcome.opened (Except.error e) :: rest) =
        (LoopEvent.attempt (streamingPullRequestFor config sub) ::
            (subscriberLoop retryable config sub c rest).1,
         (subscriberLoop retryable config sub c rest).2)) ∧
    (∀ c rest, retryable.contains e.code = false →
      subscriberLoop retryable config sub c
          (StreamOutcome.opened (Except.error e) :: rest) =
        ([LoopEvent.attempt (streamingPullRequestFor config sub)], true)) ∧
    (∀ c rest, e.code ≠ Code.cancelled →
      subscriberLoop retryable config sub c
          (StreamOutcome.opened (Except.error e) :: rest) =
        subscriberLoop retryable config sub c (StreamOutcome.openErr e :: rest)) := by
  refine ⟨?_, ?_, ?_⟩
  · intro c rest hr
    have hm : e.code ∈ retryable := by simpa using hr
    simp [subscriberLoop, hm]
  · intro c rest hr
    have hm : e.code ∉ retryable := by simpa using hr
    simp [subscriberLoop, hm]
  · intro c rest hne
    by_cases hm : e.code ∈ retryable <;> simp [subscriberLoop, hne, hm]

theorem read_error_reclassified_witness :
    subscriberLoop [Code.unavailable] testConfig "sub" 2
        (StreamOutcome.opened (Except.error ⟨Code.unavailable, ""⟩) :: []) =
      (LoopEvent.attempt (streamingPullRequestFor testConfig "sub") ::
          (subscriberLoop [Code.unavailable] testConfig "sub" 2 []).1,
       (subscriberLoop [Code.unavailable] testConfig "sub" 2 []).2) ∧
    subscriberLoop [Code.unavailable] testConfig "sub" 2
        (StreamOutcome.opened (Except.error ⟨Code.internal, ""⟩) :: []) =
      ([LoopEvent.attempt (streamingPullRequestFor testConfig "sub")], true) :=
  ⟨(read_error_reclassified [Code.unavailable] testConfig "sub" ⟨Code.unavailable, ""⟩).1 2 []
      (by decide),
   (read_error_reclassified [Code.unavailable] testConfig "sub" ⟨Code.internal, ""⟩).2.1 2 []
      (by decide)⟩

/-- Every event the retry loop emits is either a 1000 ms backoff sleep
or a stream-open attempt carrying the full request built from the
configuration. -/
theorem subscriberLoop_events (retryable : List Code) (config : SubscriberConfig)
    (sub : String) :
    ∀ (trace : List StreamOutcome) (c : Nat) (ev : LoopEvent),
      ev ∈ (subscriberLoop retryable config sub c trace).1 →
      ev = LoopEvent.sleepMs 1000 ∨
      ev = LoopEvent.attempt (streamingPullRequestFor config sub) := by
  intro trace
  induction trace with
  | nil => intro c ev h; simp [subscriberLoop] at h
  | cons outcome rest ih =>
    intro c ev h
    cases outcome with
    | openErr e =>
      by_cases hc : e.code = Code.cancelled
      · by_cases hlt : c < 5
        · simp only [subscriberLoop, hc, if_pos, hlt, if_true, List.mem_cons] at h
          rcases h with h | h | h
          · exact Or.inr h
          · exact Or.inl h
          · exact ih (c + 1) ev h
        · simp [subscriberLoop, hc, hlt] at h
          exact Or.inr h
      · by_cases hm : e.code ∈ retryable
        · simp [subscriberLoop, hc, hm] at h
          rcases h with h | h
          · exact Or.inr h
          · exact ih c ev h
        · simp [subscriberLoop, hc, hm] at h
          exact Or.inr h
    | opened r =>
      cases r with
      | ok u =>
        simp [subscriberLoop] at h
        exact Or.inr h
      | error e =>
        by_cases hm : e.code ∈ retryable
        · simp [subscriberLoop, hm] at h
          rcases h with h | h
          · exact Or.inr h
          · exact ih c ev h
        · simp [subscriberLoop, hm] at h
          exact Or.inr h

/-- C8: on every iteration of the retry loop — including every
reconnection — the open attempt carries a fresh request with the
subscription name, the configured stream acknowledgment-deadline and
both flow-control caps: the scalar configuration is re-sent in full to
each new stream instance. -/
theorem every_iteration_resends_full_config (retryable : List Code)
    (config : SubscriberConfig) (sub : String) (c : Nat) (trace : List StreamOutcome)
    (r : StreamingPullRequest)
    (h : LoopEvent.attempt r ∈ (subscriberLoop retryable config sub c trace).1) :
    r.subscription = sub ∧
    r.stream_ack_deadline_seconds = config.stream_ack_deadline_seconds ∧
    r.max_outstanding_messages = config.max_outstanding_messages ∧
    r.max_outstanding_bytes = config.max_outstanding_bytes := by
  rcases subscriberLoop_events retryable config sub trace c (LoopEvent.attempt r) h with
    h' | h'
  · exact absurd h' (by simp)
  · have hr : r = streamingPullRequestFor config sub := by
      injection h'
    subst hr
    exact ⟨rfl, rfl, rfl, rfl⟩

theorem every_iteration_resends_full_config_witness :
    (streamingPullRequestFor testConfig "sub").subscription = "sub" ∧
    (streamingPullRequestFor testConfig "sub").stream_ack_deadline_seconds =
      testConfig.stream_ack_deadline_seconds ∧
    (streamingPullRequestFor testConfig "sub").max_outstanding_messages =
      testConfig.max_outstanding_messages ∧
    (streamingPullRequestFor testConfig "sub").max_outstanding_bytes =
      testConfig.max_outstanding_bytes :=
  every_iteration_resends_full_config [] testConfig "sub" 0
    [StreamOutcome.opened (Except.ok ())] (streamingPullRequestFor testConfig "sub")
    (by simp [subscriberLoop])

/-- C4 counterexample: on a stream that ends cleanly (the read yields no
more frames without error), the receive loop returns success but closes
the outbound lease queue zero times — not the "exactly once" the claim
asserts for this terminal case (only the cancellation branch performs
`queue.close()`). -/
theorem recv_clean_end_closes_zero :
    Subscriber.recv [RecvEvent.read (Except.ok none)] = (some (Except.ok ()), 0) ∧
    (Subscriber.recv [RecvEvent.read (Except.ok none)]).2 ≠ 1 :=
  ⟨rfl, by decide⟩

/-- C4 (amended): the receive loop closes the outbound lease queue
exactly once when cancellation fires and never otherwise — in
particular not on clean stream end, not on a mid-stream read error
(transient reconnect), and not while dispatching frames — it returns
success in both terminal success cases (cancellation and clean end),
and whenever it has closed the queue it has returned success. -/
theorem recv_close_only_on_cancellation :
    (∀ rest, Subscriber.recv (RecvEvent.cancelled :: rest) = (some (Except.ok ()), 1)) ∧
    (∀ rest, Subscriber.recv (RecvEvent.read (Except.ok none) :: rest) =
      (some (Except.ok ()), 0)) ∧
    (∀ s rest, Subscriber.recv (RecvEvent.read (Except.error s) :: rest) =
      (some (Except.error s), 0)) ∧
    (∀ msgs rest, Subscriber.recv (RecvEvent.read (Except.ok (some msgs)) :: rest) =
      Subscriber.recv rest) ∧
    (∀ evs, (Subscriber.recv evs).2 ≤ 1) ∧
    (∀ evs, (Subscriber.recv evs).2 = 1 →
      (Subscriber.recv evs).1 = some (Except.ok ())) := by
  refine ⟨fun rest => rfl, fun rest => rfl, fun s rest => rfl, fun msgs rest => rfl, ?_, ?_⟩
  · intro evs
    induction evs with
    | nil => simp [Subscriber.recv]
    | cons ev rest ih =>
      cases ev with
      | cancelled => simp [Subscriber.recv]
      | read r =>
        cases r with
        | error s => simp [Subscriber.recv]
        | ok o =>
          cases o with
          | none => simp [Subscriber.recv]
          | some msgs => simpa [Subscriber.recv] using ih
  · intro evs
    induction evs with
    | nil => intro h; simp [Subscriber.recv] at h
    | cons ev rest ih =>
      cases ev with
      | cancelled => intro _; rfl
      | read r =>
        cases r with
        | error s => intro h; simp [Subscriber.recv] at h
        | ok o =>
          cases o with
          | none => intro h; simp [Subscriber.recv] at h
          | some msgs =>
            intro h
            simpa [Subscriber.recv] using ih (by simpa [Subscriber.recv] using h)

theorem recv_close_only_on_cancellation_witness :
    Subscriber.recv [RecvEvent.cancelled] = (some (Except.ok ()), 1) ∧
    (Subscriber.recv [RecvEvent.cancelled]).1 = some (Except.ok ()) :=
  ⟨recv_close_only_on_cancellation.1 [],
   recv_close_only_on_cancellation.2.2.2.2.2 [RecvEvent.cancelled] rfl⟩
